import Mathlib

/-!
Verification development for the netflix password-recovery watcher
(`netflix.py`).  The definitions below are a shallow embedding of the
mail-classification and recovery-orchestration core of the program:

* the redis-backed per-account state store (`last_id` watermark and the
  `need_to_do` suppress flag, source lines 835-879);
* the IMAP mail fetch loop `__fetch_mail` (lines 881-927), modelled over an
  abstract list of mailbox messages carrying their IMAP sequence id, decoded
  text and the fetch status;
* the classification regexes (lines 132-147) as a Brzozowski-derivative
  matcher over the exact pattern literals, lowercased to model `re.I`
  (`re.search` only asks for existence of a match, so laziness of the
  original `.*?` is irrelevant; a dot does not match a newline, as in
  Python without DOTALL);
* the listeners `pwd_result_mail_listener` (lines 929-976) and
  `pwd_reset_request_mail_listener` (lines 978-1000);
* the reset flows `__reset_password_via_mail` / `__reset_password` /
  `__pwd_change_result` (lines 526-725) as trace-producing functions over an
  abstract browser;
* the reset-mail wait loop of `__do_reset` (lines 1038-1066) and the outer
  retry loop of `run` (lines 1642-1692).
-/

/- ------------------------------------------------------------------ -/
/- Regular expressions as Brzozowski derivatives.                      -/
/- ------------------------------------------------------------------ -/

/-- Regular expressions over characters; `cls` is a character class given by
a boolean predicate. -/
inductive Re where
  | emp : Re
  | eps : Re
  | cls : (Char → Bool) → Re
  | cat : Re → Re → Re
  | alt : Re → Re → Re
  | star : Re → Re

/-- Does the regular expression accept the empty string. -/
def Re.nullable : Re → Bool
  | Re.emp => false
  | Re.eps => true
  | Re.cls _ => false
  | Re.cat a b => a.nullable && b.nullable
  | Re.alt a b => a.nullable || b.nullable
  | Re.star _ => true

/-- Smart concatenation; keeps derivative terms small without changing the
denoted language. -/
def Re.catS : Re → Re → Re
  | Re.emp, _ => Re.emp
  | _, Re.emp => Re.emp
  | Re.eps, b => b
  | a, Re.eps => a
  | a, b => Re.cat a b

/-- Smart alternation; keeps derivative terms small without changing the
denoted language. -/
def Re.altS : Re → Re → Re
  | Re.emp, b => b
  | a, Re.emp => a
  | a, b => Re.alt a b

/-- Brzozowski derivative of a regular expression by one character. -/
def Re.deriv (r : Re) (c : Char) : Re :=
  match r with
  | Re.emp => Re.emp
  | Re.eps => Re.emp
  | Re.cls p => if p c then Re.eps else Re.emp
  | Re.cat a b =>
    if a.nullable then Re.altS (Re.catS (a.deriv c) b) (b.deriv c)
    else Re.catS (a.deriv c) b
  | Re.alt a b => Re.altS (a.deriv c) (b.deriv c)
  | Re.star a => Re.catS (a.deriv c) (Re.star a)

/-- Full match of a character list against a regular expression. -/
def reMatch (r : Re) (l : List Char) : Bool :=
  (l.foldl Re.deriv r).nullable

/-- Literal string pattern. -/
def litRe (s : String) : Re :=
  s.data.foldr (fun c r => Re.cat (Re.cls (fun x => x == c)) r) Re.eps

def chNL : Char := '\n'

def chAmp : Char := '&'

def chS : Char := 's'

def chRB : Char := ']'

/-- Python regex dot: any character except a newline (no DOTALL flag is set
in the source). -/
def dotRe : Re := Re.cls (fun c => !(c == chNL))

def dotStar : Re := Re.star dotRe

/-- Any character at all; used for the implicit context of `re.search`. -/
def anyRe : Re := Re.cls (fun _ => true)

def anyStar : Re := Re.star anyRe

def optRe (r : Re) : Re := Re.alt r Re.eps

def plusRe (r : Re) : Re := Re.cat r (Re.star r)

/-- Character class excluding one character, as in a negated class. -/
def clsNot (c : Char) : Re := Re.cls (fun x => !(x == c))

/-- The source compiles every pattern with `re.I`; we lowercase the subject
text and write the pattern literals lowercase (all pattern characters are
ASCII). -/
def lowerChars (s : String) : List Char := s.data.map Char.toLower

/-- `re.search(pat, s) is not None`: some substring of `s` matches, i.e. the
whole string matches `.*` pat `.*` with an unrestricted dot. -/
def reSearch (r : Re) (s : String) : Bool :=
  reMatch (Re.cat anyStar (Re.cat r anyStar)) (lowerChars s)

/- Pattern literals of the source regexes (lowercased for `re.I`). -/

def httpLitStr : String := "http"

def schemeSepStr : String := "://"

def yourAccountStr : String := "netflix.com/youraccount?"

def alt1HeadStr : String := "lnktrk=emp&g="

def alt1TailStr : String := "&lkid=url_your_account_2"

def alt2HeadStr : String := "g="

def alt2TailStr : String := "&lkid=url_your_account&lnktrk=evo"

def wwwLoginHelpStr : String := "://www.netflix.com/loginhelp"

def loginHelpTailStr : String := "lkid=url_login_help"

def accountAccessStr : String := "accountaccess"

def accountAccessTailStr : String := "url_account_access"

/-- `PWD_HAS_BEEN_CHANGED_REGEX` (source line 142): the password-has-been-
changed confirmation-link pattern
`https?://.*?netflix\.com/YourAccount\?(?:lnktrk=EMP&g=[^&]+&lkid=URL_YOUR_ACCOUNT_2|g=[^&]+&lkid=URL_YOUR_ACCOUNT&lnktrk=EVO)`. -/
def PWD_HAS_BEEN_CHANGED_RE : Re :=
  Re.cat (litRe httpLitStr)
    (Re.cat (optRe (Re.cls (fun x => x == chS)))
      (Re.cat (litRe schemeSepStr)
        (Re.cat dotStar
          (Re.cat (litRe yourAccountStr)
            (Re.alt
              (Re.cat (litRe alt1HeadStr)
                (Re.cat (plusRe (clsNot chAmp)) (litRe alt1TailStr)))
              (Re.cat (litRe alt2HeadStr)
                (Re.cat (plusRe (clsNot chAmp)) (litRe alt2TailStr))))))))

/-- `FORCE_CHANGE_PASSWORD_REGEX` (source line 147): the provider-forced
change pattern `https?://www\.netflix\.com/LoginHelp.*?lkid=URL_LOGIN_HELP`. -/
def FORCE_CHANGE_PASSWORD_RE : Re :=
  Re.cat (litRe httpLitStr)
    (Re.cat (optRe (Re.cls (fun x => x == chS)))
      (Re.cat (litRe wwwLoginHelpStr)
        (Re.cat dotStar (litRe loginHelpTailStr))))

/-- `RESET_MAIL_REGEX` (source line 133): the reset-link-delivery pattern
`accountaccess.*?URL_ACCOUNT_ACCESS`. -/
def RESET_MAIL_RE : Re :=
  Re.cat (litRe accountAccessStr) (Re.cat dotStar (litRe accountAccessTailStr))

/-- `Netflix.is_password_reset_result` (source lines 808-815). -/
def is_password_reset_result (text : String) : Bool :=
  reSearch PWD_HAS_BEEN_CHANGED_RE text

/-- `Netflix.is_password_reset_request` (source lines 817-824). -/
def is_password_reset_request (text : String) : Bool :=
  reSearch RESET_MAIL_RE text

/-- `Netflix.is_force_change_password_request` (source lines 826-833). -/
def is_force_change_password_request (text : String) : Bool :=
  reSearch FORCE_CHANGE_PASSWORD_RE text

/- ------------------------------------------------------------------ -/
/- RESET_URL_REGEX extraction (match.group(0)).                        -/
/- ------------------------------------------------------------------ -/

def resetUrlLitStr : String := "https://www.netflix.com/password"

/-- Case-insensitive literal match at the head of the input; returns the
consumed characters in their original case together with the rest, mirroring
that `match.group(0)` is a span of the original subject. -/
def matchLitCI : List Char → List Char → Option (List Char × List Char)
  | [], rest => some ([], rest)
  | _ :: _, [] => none
  | p :: ps, c :: cs =>
    if c.toLower == p.toLower then
      match matchLitCI ps cs with
      | some (m, r) => some (c :: m, r)
      | none => none
    else none

/-- `RESET_URL_REGEX` (source line 136) anchored at the current position:
the literal `https://www\.netflix\.com/password` followed by the greedy
`[^]]+` (at least one character that is not a right bracket). -/
def reset_url_at (l : List Char) : Option (List Char) :=
  match matchLitCI resetUrlLitStr.data l with
  | none => none
  | some (m, rest) =>
    let body := rest.takeWhile (fun c => !(c == chRB))
    if body.isEmpty then none else some (m ++ body)

/-- Leftmost match of `RESET_URL_REGEX`, scanning start positions left to
right exactly as `re.search` does. -/
def reset_url_chars : List Char → Option (List Char)
  | [] => none
  | c :: cs =>
    match reset_url_at (c :: cs) with
    | some m => some m
    | none => reset_url_chars cs

/-- `RESET_URL_REGEX.search(text)` with the matched span returned as
`match.group(0)` (source lines 991-998). -/
def reset_url_group0 (text : String) : Option String :=
  (reset_url_chars text.data).map (fun l => String.mk l)

/- ------------------------------------------------------------------ -/
/- The redis-backed per-account state store.                           -/
/- ------------------------------------------------------------------ -/

/-- The redis key-value store: string keys to integer values (the source
installs an `int` response callback for GET).  First binding wins, as a set
prepends a fresh binding. -/
abbrev Store := List (String × Nat)

/-- `redis.get`, returning `none` for a missing key. -/
def rds_get (s : Store) (k : String) : Option Nat :=
  (s.find? (fun p => p.1 == k)).map (fun p => p.2)

/-- `redis.exists`. -/
def rds_exists (s : Store) (k : String) : Bool :=
  (rds_get s k).isSome

/-- `redis.set`. -/
def rds_set (s : Store) (k : String) (v : Nat) : Store :=
  (k, v) :: s

def lastIdSuffix : String := ".last_id"

def needToDoSuffix : String := ".need_to_do"

/-- `Netflix.get_mail_last_id` (source lines 835-844): the stored watermark,
defaulting to 0 when the key is absent. -/
def get_mail_last_id (rds : Store) (email : String) : Nat :=
  let key_last_id := email ++ lastIdSuffix
  if rds_exists rds key_last_id then (rds_get rds key_last_id).getD 0 else 0

/-- `Netflix.set_mail_last_id` (source lines 846-856); the source mutates
redis and returns True, we return the updated store. -/
def set_mail_last_id (rds : Store) (email : String) (id : Nat) : Store :=
  rds_set rds (email ++ lastIdSuffix) id

/-- `Netflix.is_need_to_do` (source lines 858-867): the stored flag,
defaulting to 1 (processing enabled) when the key is absent. -/
def is_need_to_do (rds : Store) (email : String) : Nat :=
  let key_need_to_do := email ++ needToDoSuffix
  if rds_exists rds key_need_to_do then (rds_get rds key_need_to_do).getD 1
  else 1

/-- `Netflix.set_need_to_do` (source lines 869-879). -/
def set_need_to_do (rds : Store) (email : String) (status : Nat) : Store :=
  rds_set rds (email ++ needToDoSuffix) status

/- ------------------------------------------------------------------ -/
/- The mailbox and __fetch_mail.                                       -/
/- ------------------------------------------------------------------ -/

/-- One mailbox message as seen by `__fetch_mail` after the server-side
TO/SENTSINCE filter: its IMAP sequence id, the decoded text body (the
listeners only consult `resp['text']`), and whether the RFC822 fetch
returned status OK. -/
structure MailMsg where
  id : Nat
  text : String
  fetchOk : Bool
deriving DecidableEq, Repr

/-- The scan loop of `__fetch_mail` (source lines 907-925) over the already
reversed (newest-first) id list: skip ids at or below the watermark, skip
messages whose fetch failed, return the first remaining message. -/
def fetch_mail_scan (last_id : Nat) : List MailMsg → Option MailMsg
  | [] => none
  | m :: rest =>
    if m.id ≤ last_id then fetch_mail_scan last_id rest
    else if m.fetchOk = false then fetch_mail_scan last_id rest
    else some m

/-- `Netflix.__fetch_mail` (source lines 881-927): read the watermark, scan
the mailbox newest-first (the server returns ids in ascending order and the
source reverses them), and on returning a message advance the watermark to
its id. -/
def fetch_mail (rds : Store) (email : String) (server : List MailMsg) :
    Option MailMsg × Store :=
  match fetch_mail_scan (get_mail_last_id rds email) server.reverse with
  | some m => (some m, set_mail_last_id rds email m.id)
  | none => (none, rds)

/-- A sequence of polls of `__fetch_mail` for one account, as iterated by
the listening loop of `run`; returns the list of returned messages in order
together with the final store. -/
def poll_seq (email : String) : Store → List (List MailMsg) → List MailMsg × Store
  | rds, [] => ([], rds)
  | rds, server :: rest =>
    match (fetch_mail rds email server).1 with
    | none => poll_seq email (fetch_mail rds email server).2 rest
    | some m =>
      (m :: (poll_seq email (fetch_mail rds email server).2 rest).1,
       (poll_seq email (fetch_mail rds email server).2 rest).2)

/- ------------------------------------------------------------------ -/
/- pwd_result_mail_listener.                                           -/
/- ------------------------------------------------------------------ -/

/-- The per-process listener state: the redis store plus the in-memory
`first_time` list of accounts already seen in this process lifetime
(source line 251). -/
structure ListenSt where
  redis : Store
  firstTime : List String
deriving DecidableEq, Repr

/-- `Netflix.pwd_result_mail_listener` (source lines 929-976).  Returns the
optional incident (the source returns `True, event_type` or falls through to
None) together with the updated state.  Event type 1 is a malicious password
change, 2 is a provider-forced change. -/
def pwd_result_mail_listener (force : Bool) (email : String)
    (server : List MailMsg) (st : ListenSt) :
    Option (Bool × Nat) × ListenSt :=
  match (fetch_mail st.redis email server).1 with
  | none => (none, ⟨(fetch_mail st.redis email server).2, st.firstTime⟩)
  | some mail =>
    if is_password_reset_result mail.text then
      if is_need_to_do (fetch_mail st.redis email server).2 email = 0 then
        (none,
         ⟨set_need_to_do (fetch_mail st.redis email server).2 email 1,
          st.firstTime⟩)
      else if email ∉ st.firstTime then
        if force then
          (some (true, 1),
           ⟨(fetch_mail st.redis email server).2, st.firstTime ++ [email]⟩)
        else
          (none,
           ⟨(fetch_mail st.redis email server).2, st.firstTime ++ [email]⟩)
      else
        (some (true, 1), ⟨(fetch_mail st.redis email server).2, st.firstTime⟩)
    else if is_force_change_password_request mail.text then
      (some (true, 2), ⟨(fetch_mail st.redis email server).2, st.firstTime⟩)
    else
      (none, ⟨(fetch_mail st.redis email server).2, st.firstTime⟩)

def linkExtractErrMsg : String :=
  "reset mail matched but could not extract the reset password link"

/-- `Netflix.pwd_reset_request_mail_listener` (source lines 978-1000): fetch
the newest mail; when it matches the reset-link-delivery pattern, extract
the reset URL, raising (modelled as `Except.error`) when the URL pattern
does not match; otherwise report no link. -/
def pwd_reset_request_mail_listener (rds : Store) (email : String)
    (server : List MailMsg) : Except String (Option String) × Store :=
  match (fetch_mail rds email server).1 with
  | none => (Except.ok none, (fetch_mail rds email server).2)
  | some m =>
    if is_password_reset_request m.text then
      match reset_url_group0 m.text with
      | none => (Except.error linkExtractErrMsg, (fetch_mail rds email server).2)
      | some url => (Except.ok (some url), (fetch_mail rds email server).2)
    else (Except.ok none, (fetch_mail rds email server).2)

/- ------------------------------------------------------------------ -/
/- Browser operations: reset via mail and in-account change.           -/
/- ------------------------------------------------------------------ -/

/-- Abstract browser operations performed by the reset flows.  A
`resetFormSubmit` is one entry of a password into the reset form
(`input_pwd` followed by `handle_event(click_submit_btn)`, with the small
in-place unknown-error retries of `handle_event` folded into the single
action); an `accountFormSubmit` is one submission of the in-account change
form of `__reset_password` with the current and the new password; a
`verifyConfirm` is one call of `__pwd_change_result`. -/
inductive BrowserAct where
  | resetFormSubmit (pwd : String) : BrowserAct
  | accountFormSubmit (curr newPwd : String) : BrowserAct
  | verifyConfirm : BrowserAct
deriving DecidableEq, Repr

def pwdChangeFailMsg : String :=
  "did not land on the password change success page"

/-- `Netflix.__pwd_change_result` (source lines 713-725) over an abstract
verification outcome: True when the browser reached the confirmation URL,
an exception otherwise.  Also records the verification in the trace. -/
def pwd_change_result_t (verifyOk : Bool) : Except String Bool × List BrowserAct :=
  (if verifyOk then Except.ok true else Except.error pwdChangeFailMsg,
   [BrowserAct.verifyConfirm])

def inAccountChangeErrMsg : String :=
  "error while changing the password inside the account: "

/-- `Netflix.__reset_password` (source lines 526-563): fill the in-account
change form with the current and the new password, submit, then check the
result; any failure is re-raised with a wrapping message. -/
def reset_password_t (verifyOk : Bool) (curr newPwd : String) :
    Except String Bool × List BrowserAct :=
  match pwd_change_result_t verifyOk with
  | (Except.ok b, acts) =>
    (Except.ok b, BrowserAct.accountFormSubmit curr newPwd :: acts)
  | (Except.error e, acts) =>
    (Except.error (inAccountChangeErrMsg ++ e),
     BrowserAct.accountFormSubmit curr newPwd :: acts)

/-- `Netflix.__reset_password_via_mail` (source lines 675-711).  `usedBefore`
is whether the field-newPassword error tip appears after the first
submission (the provider rejecting a previously used password), `v1` and
`v2` are the outcomes of the successive `__pwd_change_result` checks, and
`randomPwd` stands for the freshly generated `gen_random_pwd()` value.  On
the rejection path the flow submits the random password through the reset
form, verifies, then changes back to the requested password through the
in-account form of `__reset_password`. -/
def reset_password_via_mail_t (usedBefore : Bool) (v1 v2 : Bool)
    (randomPwd newPwd : String) : Except String Bool × List BrowserAct :=
  let firstActs := [BrowserAct.resetFormSubmit newPwd]
  if usedBefore then
    match pwd_change_result_t v1 with
    | (Except.error e, a1) =>
      (Except.error e, firstActs ++ [BrowserAct.resetFormSubmit randomPwd] ++ a1)
    | (Except.ok _, a1) =>
      match reset_password_t v2 randomPwd newPwd with
      | (res, a2) =>
        (res, firstActs ++ [BrowserAct.resetFormSubmit randomPwd] ++ a1 ++ a2)
  else
    match pwd_change_result_t v1 with
    | (res, a1) => (res, firstActs ++ a1)

/- ------------------------------------------------------------------ -/
/- __pwd_change_result against the literal confirmation URL.           -/
/- ------------------------------------------------------------------ -/

/-- The literal post-change confirmation URL of source line 719. -/
def CONFIRM_URL : String := "https://www.netflix.com/YourAccount?confirm=password"

/-- The polling of `self.wait.until` over discrete ticks: true when the
condition holds at some tick within the budget. -/
def wait_until_url (urls : Nat → String) (target : String) : Nat → Nat → Bool
  | _, 0 => false
  | k, fuel + 1 =>
    if urls k == target then true else wait_until_url urls target (k + 1) fuel

/-- `Netflix.__pwd_change_result` (source lines 713-725) refined over the
browser URL history: the wait succeeds exactly when the current URL becomes
the literal confirmation URL within the budget. -/
def pwd_change_result_url (urls : Nat → String) (budget : Nat) :
    Except String Bool :=
  (pwd_change_result_t (wait_until_url urls CONFIRM_URL 0 budget)).1

/- ------------------------------------------------------------------ -/
/- The reset-mail wait loop of __do_reset.                             -/
/- ------------------------------------------------------------------ -/

/-- Configuration constant of source line 246: at most this many minutes are
spent waiting for the reset mail. -/
def max_wait_reset_mail_time : Nat := 10

/-- Outcome of the wait loop: a reset link, the timeout exception, or fuel
exhaustion (an artifact of the fuel encoding that the bound theorem rules
out). -/
inductive WaitRes where
  | link (url : String) : WaitRes
  | timeoutErr : WaitRes
  | fuelOut : WaitRes
deriving DecidableEq, Repr

/-- The wait loop of `Netflix.__do_reset` (source lines 1050-1064): poll the
reset-request listener, break on a link, raise once the elapsed seconds
exceed `60 * max_wait_reset_mail_time`, else sleep and repeat.  `poll k` is
the listener result at iteration `k` and `elapsed k` the elapsed seconds at
its timeout check. -/
def wait_for_reset_mail (poll : Nat → Option String) (elapsed : Nat → Nat)
    (bound : Nat) : Nat → Nat → WaitRes
  | _, 0 => WaitRes.fuelOut
  | k, fuel + 1 =>
    match poll k with
    | some url => WaitRes.link url
    | none =>
      if bound < elapsed k then WaitRes.timeoutErr
      else wait_for_reset_mail poll elapsed bound (k + 1) fuel

def waitTimeoutMsg : String :=
  "waited too long for the netflix reset password mail"

/-- The wait phase of `Netflix.__do_reset` (source lines 1038-1066): on a
link, suppress the next password-result mail (`set_need_to_do 0`) and hand
the link on; on timeout the exception propagates to the caller (the outer
retry loop of `run`) instead of being handled in place. -/
def do_reset_wait (rds : Store) (email : String) (poll : Nat → Option String)
    (elapsed : Nat → Nat) (fuel : Nat) : Except String (String × Store) :=
  match wait_for_reset_mail poll elapsed (60 * max_wait_reset_mail_time) 0 fuel with
  | WaitRes.link url => Except.ok (url, set_need_to_do rds email 0)
  | WaitRes.timeoutErr => Except.error waitTimeoutMsg
  | WaitRes.fuelOut => Except.error waitTimeoutMsg

/- ------------------------------------------------------------------ -/
/- The outer retry loop of run.                                        -/
/- ------------------------------------------------------------------ -/

/-- Configuration constant of source line 249: how many recovery attempts
are made before giving up. -/
def max_num_of_attempts : Nat := 12

/-- Observable outcome of the retry loop of `run` (source lines 1642-1692):
how many attempts were executed, how many success and failure notification
mails were sent, how many attachments the failure mail carried (the day log
and the error screenshot), and the final value written to the account
`need_to_do` flag. -/
structure RetryRes where
  attempts : Nat
  successMails : Nat
  failureMails : Nat
  failureMailFiles : Option Nat
  finalFlag : Option Nat
deriving DecidableEq, Repr

/-- The `while True` retry loop of `run` with attempt counter `num`:
`outcome num` tells whether the try block (the recovery for the current
event type) succeeds.  On success the success mail is sent and the flag set
to 0; the `finally` block then still runs: once `num` has reached
`max_num_of_attempts` it re-arms the flag to 1, sends exactly one failure
mail with two attachments, and breaks; otherwise it increments `num` and
the loop either exits (after a success) or retries.  The fuel argument is
an upper bound on iterations, consumed once per iteration. -/
def retry_rec (outcome : Nat → Bool) (maxA : Nat) : Nat → Nat → RetryRes
  | _, 0 => ⟨0, 0, 0, none, none⟩
  | num, fuel + 1 =>
    let ok := outcome num
    if maxA ≤ num then
      ⟨1, if ok then 1 else 0, 1, some 2, some 1⟩
    else if ok then
      ⟨1, 1, 0, none, some 0⟩
    else
      let r := retry_rec outcome maxA (num + 1) fuel
      { r with attempts := r.attempts + 1 }

/-- The retry loop as entered by `run`: counter starts at 1; `maxA` fuel
suffices because the loop always breaks once the counter reaches `maxA`. -/
def run_recovery (outcome : Nat → Bool) (maxA : Nat) : RetryRes :=
  retry_rec outcome maxA 1 maxA

/- ------------------------------------------------------------------ -/
/- Concrete demonstration values for witnesses and counterexamples.    -/
/- ------------------------------------------------------------------ -/

def demoEmail : String := "alice@example.com"

/-- A body matching the password-has-been-changed pattern (second
alternative of `PWD_HAS_BEEN_CHANGED_REGEX`). -/
def malText : String :=
  "https://www.netflix.com/YourAccount?g=abc&lkid=URL_YOUR_ACCOUNT&lnktrk=EVO"

/-- A body matching the provider-forced-change pattern. -/
def forceText : String :=
  "https://www.netflix.com/LoginHelp?x=1&lkid=URL_LOGIN_HELP"

/-- A body matching both classification patterns at once. -/
def bothText : String := malText ++ " " ++ forceText

/-- A body matching the reset-link-delivery pattern but containing no
reset-URL match. -/
def resetReqNoUrlText : String := "xaccountaccess abc url_account_access end"

def demoMalMsg1 : MailMsg := ⟨1, malText, true⟩

def demoMalMsg2 : MailMsg := ⟨2, malText, true⟩

def demoBothMsg : MailMsg := ⟨1, bothText, true⟩

def demoResetReqMsg : MailMsg := ⟨1, resetReqNoUrlText, true⟩

def demoServer1 : List MailMsg := [demoMalMsg1]

def demoServer2 : List MailMsg := [demoMalMsg2]

def demoBothServer : List MailMsg := [demoBothMsg]

def demoResetReqServer : List MailMsg := [demoResetReqMsg]

/-- State with the suppress flag stored as 0 and no account seen yet. -/
def demoStFlag0New : ListenSt := ⟨[(demoEmail ++ needToDoSuffix, 0)], []⟩

/-- State with the suppress flag stored as 0 and the account already seen. -/
def demoStFlag0Seen : ListenSt := ⟨[(demoEmail ++ needToDoSuffix, 0)], [demoEmail]⟩

/-- Fresh state: empty store, no account seen. -/
def demoStFresh : ListenSt := ⟨[], []⟩

def plainText : String := "hello"

def c1msgA : MailMsg := ⟨1, plainText, true⟩

def c1msgB : MailMsg := ⟨5, plainText, true⟩

def c1server : List MailMsg := [c1msgA, c1msgB]

/-- URL history for the confirmation-check witness: the confirmation URL
appears at tick 2. -/
def demoUrls (k : Nat) : String := if k = 2 then CONFIRM_URL else plainText

/- ------------------------------------------------------------------ -/
/- Helper lemmas about the state store.                                -/
/- ------------------------------------------------------------------ -/

theorem str_data_append (s t : String) : (s ++ t).data = s.data ++ t.data := by
  cases s
  cases t
  rfl

theorem last_id_key_ne_need_key (email : String) :
    email ++ lastIdSuffix ≠ email ++ needToDoSuffix := by
  intro h
  have hd := congrArg String.data h
  rw [str_data_append, str_data_append] at hd
  have h2 : lastIdSuffix.data = needToDoSuffix.data :=
    List.append_cancel_left hd
  exact absurd h2 (by decide)

theorem rds_get_set_same (s : Store) (k : String) (v : Nat) :
    rds_get (rds_set s k v) k = some v := by
  simp [rds_get, rds_set, List.find?]

theorem rds_get_set_ne (s : Store) (k k2 : String) (v : Nat) (h : k ≠ k2) :
    rds_get (rds_set s k v) k2 = rds_get s k2 := by
  have hbeq : (k == k2) = false := by
    simpa [beq_eq_false_iff_ne]
  simp [rds_get, rds_set, List.find?, hbeq]

theorem get_mail_last_id_set (rds : Store) (email : String) (v : Nat) :
    get_mail_last_id (set_mail_last_id rds email v) email = v := by
  simp only [get_mail_last_id, set_mail_last_id, rds_exists]
  rw [rds_get_set_same]
  rfl

theorem is_need_to_do_set_need (rds : Store) (email : String) (v : Nat) :
    is_need_to_do (set_need_to_do rds email v) email = v := by
  simp only [is_need_to_do, set_need_to_do, rds_exists]
  rw [rds_get_set_same]
  rfl

theorem is_need_to_do_set_mail_last_id (rds : Store) (email : String) (v : Nat) :
    is_need_to_do (set_mail_last_id rds email v) email = is_need_to_do rds email := by
  simp only [is_need_to_do, set_mail_last_id, rds_exists]
  rw [rds_get_set_ne _ _ _ _ (last_id_key_ne_need_key email)]

/- ------------------------------------------------------------------ -/
/- Helper lemmas about __fetch_mail.                                   -/
/- ------------------------------------------------------------------ -/

theorem fetch_mail_scan_some (last_id : Nat) (l : List MailMsg) (m : MailMsg)
    (h : fetch_mail_scan last_id l = some m) :
    last_id < m.id ∧ m.fetchOk = true := by
  induction l with
  | nil => simp [fetch_mail_scan] at h
  | cons x rest ih =>
    by_cases h1 : x.id ≤ last_id
    · rw [fetch_mail_scan, if_pos h1] at h
      exact ih h
    · by_cases h2 : x.fetchOk = false
      · rw [fetch_mail_scan, if_neg h1, if_pos h2] at h
        exact ih h
      · rw [fetch_mail_scan, if_neg h1, if_neg h2] at h
        cases h
        exact ⟨by omega, by simpa using h2⟩

theorem fetch_mail_scan_max (last_id : Nat) (l : List MailMsg) (m : MailMsg)
    (hsort : List.Pairwise (fun a b => b.id ≤ a.id) l)
    (h : fetch_mail_scan last_id l = some m) :
    ∀ x ∈ l, last_id < x.id → x.fetchOk = true → x.id ≤ m.id := by
  induction l with
  | nil => simp
  | cons y rest ih =>
    rw [List.pairwise_cons] at hsort
    intro x hx hxid hxok
    rw [List.mem_cons] at hx
    by_cases h1 : y.id ≤ last_id
    · rw [fetch_mail_scan, if_pos h1] at h
      rcases hx with hx | hx
      · subst hx
        omega
      · exact ih hsort.2 h x hx hxid hxok
    · by_cases h2 : y.fetchOk = false
      · rw [fetch_mail_scan, if_neg h1, if_pos h2] at h
        rcases hx with hx | hx
        · subst hx
          rw [hxok] at h2
          cases h2
        · exact ih hsort.2 h x hx hxid hxok
      · rw [fetch_mail_scan, if_neg h1, if_neg h2] at h
        cases h
        rcases hx with hx | hx
        · subst hx
          exact Nat.le_refl _
        · exact hsort.1 x hx

theorem fetch_mail_none_store (rds : Store) (email : String)
    (server : List MailMsg) (h : (fetch_mail rds email server).1 = none) :
    (fetch_mail rds email server).2 = rds := by
  unfold fetch_mail at h ⊢
  cases hs : fetch_mail_scan (get_mail_last_id rds email) server.reverse with
  | none => simp
  | some m => rw [hs] at h; simp at h

theorem fetch_mail_some_spec (rds : Store) (email : String)
    (server : List MailMsg) (m : MailMsg)
    (h : (fetch_mail rds email server).1 = some m) :
    get_mail_last_id rds email < m.id ∧ m.fetchOk = true ∧
      get_mail_last_id (fetch_mail rds email server).2 email = m.id := by
  unfold fetch_mail at h ⊢
  cases hs : fetch_mail_scan (get_mail_last_id rds email) server.reverse with
  | none => rw [hs] at h; simp at h
  | some m2 =>
    rw [hs] at h
    simp only [Option.some.injEq] at h
    subst h
    have hsome := fetch_mail_scan_some _ _ _ hs
    exact ⟨hsome.1, hsome.2, by simp [get_mail_last_id_set]⟩

theorem fetch_mail_watermark_le (rds : Store) (email : String)
    (server : List MailMsg) :
    get_mail_last_id rds email ≤ get_mail_last_id (fetch_mail rds email server).2 email := by
  cases h : (fetch_mail rds email server).1 with
  | none => rw [fetch_mail_none_store rds email server h]
  | some m =>
    have hspec := fetch_mail_some_spec rds email server m h
    omega

theorem is_need_to_do_fetch_mail (rds : Store) (email : String)
    (server : List MailMsg) :
    is_need_to_do (fetch_mail rds email server).2 email = is_need_to_do rds email := by
  unfold fetch_mail
  cases hs : fetch_mail_scan (get_mail_last_id rds email) server.reverse with
  | none => rfl
  | some m => simp [is_need_to_do_set_mail_last_id]

theorem poll_seq_spec (email : String) (batches : List (List MailMsg)) :
    ∀ rds : Store,
      get_mail_last_id rds email ≤ get_mail_last_id (poll_seq email rds batches).2 email ∧
      (∀ m ∈ (poll_seq email rds batches).1, get_mail_last_id rds email < m.id) ∧
      List.Pairwise (fun a b => a.id < b.id) (poll_seq email rds batches).1 := by
  induction batches with
  | nil =>
    intro rds
    simp [poll_seq]
  | cons server rest ih =>
    intro rds
    cases hf : (fetch_mail rds email server).1 with
    | none =>
      have hst := fetch_mail_none_store rds email server hf
      have hrec := ih (fetch_mail rds email server).2
      rw [hst] at hrec
      simp only [poll_seq, hf]
      rw [hst]
      exact hrec
    | some m =>
      have hspec := fetch_mail_some_spec rds email server m hf
      have hrec := ih (fetch_mail rds email server).2
      rw [hspec.2.2] at hrec
      simp only [poll_seq, hf]
      refine ⟨by omega, ?_, ?_⟩
      · intro x hx
        rw [List.mem_cons] at hx
        rcases hx with hx | hx
        · subst hx
          exact hspec.1
        · have := hrec.2.1 x hx
          omega
      · refine List.Pairwise.cons ?_ hrec.2.2
        intro b hb
        exact hrec.2.1 b hb

/- ------------------------------------------------------------------ -/
/- Claim theorems.                                                     -/
/- ------------------------------------------------------------------ -/

/-- Claim C1: for every account and every sequence of polls the stored
watermark is monotonically non-decreasing; whenever `__fetch_mail` returns a
message it has skipped every message with id at or below the watermark,
scanned newest-first (so among the qualifying fetchable messages of an
ascending mailbox the returned one has the greatest id), and set the
watermark to the returned id, which strictly exceeds the previous watermark;
across any poll sequence the returned ids are strictly increasing, so no
message at or below the watermark is ever returned (hence classified)
twice. -/
theorem fetch_mail_watermark_monotone (rds : Store) (email : String)
    (server : List MailMsg)
    (hsort : List.Pairwise (fun a b => a.id ≤ b.id) server) :
    get_mail_last_id rds email ≤
      get_mail_last_id (fetch_mail rds email server).2 email ∧
    (∀ m, (fetch_mail rds email server).1 = some m →
      get_mail_last_id rds email < m.id ∧
      get_mail_last_id (fetch_mail rds email server).2 email = m.id ∧
      ∀ x ∈ server, get_mail_last_id rds email < x.id → x.fetchOk = true →
        x.id ≤ m.id) ∧
    (∀ batches : List (List MailMsg),
      get_mail_last_id rds email ≤
        get_mail_last_id (poll_seq email rds batches).2 email ∧
      List.Pairwise (fun a b => a.id < b.id) (poll_seq email rds batches).1) := by
  refine ⟨fetch_mail_watermark_le rds email server, ?_, ?_⟩
  · intro m hm
    have hspec := fetch_mail_some_spec rds email server m hm
    refine ⟨hspec.1, hspec.2.2, ?_⟩
    intro x hx hxid hxok
    have hrev : List.Pairwise (fun a b => b.id ≤ a.id) server.reverse :=
      List.pairwise_reverse.mpr hsort
    have hscan : fetch_mail_scan (get_mail_last_id rds email) server.reverse = some m := by
      unfold fetch_mail at hm
      cases hs : fetch_mail_scan (get_mail_last_id rds email) server.reverse with
      | none => rw [hs] at hm; simp at hm
      | some m2 =>
        rw [hs] at hm
        simp only [Option.some.injEq] at hm
        rw [hm]
    exact fetch_mail_scan_max _ _ _ hrev hscan x (List.mem_reverse.mpr hx) hxid hxok
  · intro batches
    have h := poll_seq_spec email batches rds
    exact ⟨h.1, h.2.2⟩

/-- Witness for claim C1 at a concrete store and mailbox: the empty store
has watermark 0, the poll returns the newer message with id 5 and advances
the watermark to 5, the maximum among the qualifying messages. -/
theorem fetch_mail_watermark_monotone_witness :
    get_mail_last_id ([] : Store) demoEmail < c1msgB.id ∧
    get_mail_last_id (fetch_mail ([] : Store) demoEmail c1server).2 demoEmail = c1msgB.id ∧
    ∀ x ∈ c1server, get_mail_last_id ([] : Store) demoEmail < x.id →
      x.fetchOk = true → x.id ≤ c1msgB.id :=
  (fetch_mail_watermark_monotone ([] : Store) demoEmail c1server (by decide)).2.1
    c1msgB (by decide)

/-- Claim C10: with no stored entry for an account the accessors return the
fixed defaults, watermark 0 and need-to-do 1, and with watermark 0 no
message with a positive id is skipped by the watermark filter. -/
theorem state_store_defaults (rds : Store) (email : String)
    (h1 : rds_get rds (email ++ lastIdSuffix) = none)
    (h2 : rds_get rds (email ++ needToDoSuffix) = none) :
    get_mail_last_id rds email = 0 ∧ is_need_to_do rds email = 1 ∧
    ∀ m : MailMsg, 0 < m.id → ¬ m.id ≤ get_mail_last_id rds email := by
  have g1 : get_mail_last_id rds email = 0 := by
    simp [get_mail_last_id, rds_exists, h1]
  refine ⟨g1, ?_, ?_⟩
  · simp [is_need_to_do, rds_exists, h2]
  · intro m hm
    rw [g1]
    omega

/-- Witness for claim C10 at the empty store. -/
theorem state_store_defaults_witness :
    get_mail_last_id ([] : Store) demoEmail = 0 ∧
    is_need_to_do ([] : Store) demoEmail = 1 ∧
    ∀ m : MailMsg, 0 < m.id → ¬ m.id ≤ get_mail_last_id ([] : Store) demoEmail :=
  state_store_defaults ([] : Store) demoEmail rfl rfl

/-- Claim C2 counterexample: with the suppress flag stored as 0 but the
account not yet in the first-time list (reachable after a process restart),
the first malicious message is swallowed and the flag reset, but the second
malicious message with the flag cleared is swallowed by the first-run guard
instead of producing an incident, contradicting the claim that it produces
a malicious event. -/
theorem suppress_flag_counterexample :
    (pwd_result_mail_listener false demoEmail demoServer1 demoStFlag0New).1 = none ∧
    is_need_to_do (pwd_result_mail_listener false demoEmail demoServer1
        demoStFlag0New).2.redis demoEmail = 1 ∧
    (pwd_result_mail_listener false demoEmail demoServer2
        (pwd_result_mail_listener false demoEmail demoServer1 demoStFlag0New).2).1
      = none := by
  decide

/-- Claim C2 (amended): with the suppress flag stored as 0, a malicious
message is swallowed exactly once, the listener returning no incident and
resetting the flag to 1 in the same call; a second malicious message with
the flag cleared then produces a malicious incident provided the account is
already recorded in the first-time list. -/
theorem suppress_once_then_new_incident (force : Bool) (email : String)
    (server1 server2 : List MailMsg) (st : ListenSt) (m1 m2 : MailMsg)
    (hm1 : (fetch_mail st.redis email server1).1 = some m1)
    (h1 : is_password_reset_result m1.text = true)
    (hflag : is_need_to_do st.redis email = 0)
    (hmem : email ∈ st.firstTime)
    (hm2 : (fetch_mail (pwd_result_mail_listener force email server1 st).2.redis
        email server2).1 = some m2)
    (h2 : is_password_reset_result m2.text = true) :
    (pwd_result_mail_listener force email server1 st).1 = none ∧
    is_need_to_do (pwd_result_mail_listener force email server1 st).2.redis email = 1 ∧
    (pwd_result_mail_listener force email server2
        (pwd_result_mail_listener force email server1 st).2).1 = some (true, 1) := by
  have hflagF : is_need_to_do (fetch_mail st.redis email server1).2 email = 0 := by
    rw [is_need_to_do_fetch_mail]
    exact hflag
  have hcall1 : pwd_result_mail_listener force email server1 st =
      (none, ⟨set_need_to_do (fetch_mail st.redis email server1).2 email 1,
              st.firstTime⟩) := by
    simp [pwd_result_mail_listener, hm1, h1, hflagF]
  refine ⟨by rw [hcall1], ?_, ?_⟩
  · rw [hcall1]
    simpa using is_need_to_do_set_need (fetch_mail st.redis email server1).2 email 1
  · rw [hcall1] at hm2 ⊢
    simp [pwd_result_mail_listener, hm2, h2, hmem, is_need_to_do_fetch_mail,
      is_need_to_do_set_need]

/-- Witness for the amended claim C2: flag stored 0, account already seen;
the first malicious message is swallowed with the flag reset to 1 and the
second one yields the malicious incident. -/
theorem suppress_once_then_new_incident_witness :
    (pwd_result_mail_listener false demoEmail demoServer1 demoStFlag0Seen).1 = none ∧
    is_need_to_do (pwd_result_mail_listener false demoEmail demoServer1
        demoStFlag0Seen).2.redis demoEmail = 1 ∧
    (pwd_result_mail_listener false demoEmail demoServer2
        (pwd_result_mail_listener false demoEmail demoServer1 demoStFlag0Seen).2).1
      = some (true, 1) :=
  suppress_once_then_new_incident false demoEmail demoServer1 demoServer2
    demoStFlag0Seen demoMalMsg1 demoMalMsg2 (by decide) (by decide) (by decide)
    (by decide) (by decide) (by decide)

/-- Claim C3: when a mail body matches both the password-has-been-changed
pattern and the provider-forced-change pattern, the listener never
classifies it as a provider-forced change (event type 2); the outcome is
either suppression or a malicious incident (event type 1). -/
theorem malicious_precedes_forced (force : Bool) (email : String)
    (server : List MailMsg) (st : ListenSt) (m : MailMsg)
    (hm : (fetch_mail st.redis email server).1 = some m)
    (h1 : is_password_reset_result m.text = true)
    (h2 : is_force_change_password_request m.text = true) :
    (pwd_result_mail_listener force email server st).1 ≠ some (true, 2) ∧
    ((pwd_result_mail_listener force email server st).1 = none ∨
     (pwd_result_mail_listener force email server st).1 = some (true, 1)) := by
  by_cases hflag : is_need_to_do (fetch_mail st.redis email server).2 email = 0
  · simp [pwd_result_mail_listener, hm, h1, hflag]
  · by_cases hmem : email ∈ st.firstTime
    · simp [pwd_result_mail_listener, hm, h1, hflag, hmem]
    · by_cases hforce : force
      · simp [pwd_result_mail_listener, hm, h1, hflag, hmem, hforce]
      · simp [pwd_result_mail_listener, hm, h1, hflag, hmem, hforce]

/-- Witness for claim C3 on a body containing both a malicious-change link
and a forced-change link. -/
theorem malicious_precedes_forced_witness :
    (pwd_result_mail_listener false demoEmail demoBothServer demoStFresh).1
      ≠ some (true, 2) ∧
    ((pwd_result_mail_listener false demoEmail demoBothServer demoStFresh).1 = none ∨
     (pwd_result_mail_listener false demoEmail demoBothServer demoStFresh).1
       = some (true, 1)) :=
  malicious_precedes_forced false demoEmail demoBothServer demoStFresh demoBothMsg
    (by decide) (by decide) (by decide)

/-- Claim C4 counterexample: with the suppress flag stored as 0 and the
force flag set, the first malicious classification for an unseen account is
swallowed by the suppress branch without recording the account as seen and
without triggering the reset flow, contradicting the claim that a first-time
detection records the account and that it triggers the flow under force. -/
theorem first_time_counterexample :
    (pwd_result_mail_listener true demoEmail demoServer1 demoStFlag0New).1 = none ∧
    (pwd_result_mail_listener true demoEmail demoServer1 demoStFlag0New).2.firstTime
      = ([] : List String) := by
  decide

/-- Claim C4 (amended): when the suppress flag is not 0, the first malicious
classification for an account not yet in the first-time list records the
account as seen; without force the event is ignored, with force it triggers
the malicious reset flow. -/
theorem first_time_ignore (force : Bool) (email : String)
    (server : List MailMsg) (st : ListenSt) (m : MailMsg)
    (hm : (fetch_mail st.redis email server).1 = some m)
    (h1 : is_password_reset_result m.text = true)
    (hflag : is_need_to_do st.redis email ≠ 0)
    (hnew : email ∉ st.firstTime) :
    (pwd_result_mail_listener force email server st).2.firstTime
      = st.firstTime ++ [email] ∧
    (force = false → (pwd_result_mail_listener force email server st).1 = none) ∧
    (force = true →
      (pwd_result_mail_listener force email server st).1 = some (true, 1)) := by
  have hflag2 : ¬ is_need_to_do (fetch_mail st.redis email server).2 email = 0 := by
    rw [is_need_to_do_fetch_mail]
    exact hflag
  cases force with
  | true => simp [pwd_result_mail_listener, hm, h1, hflag2, hnew]
  | false => simp [pwd_result_mail_listener, hm, h1, hflag2, hnew]

/-- Witness for the amended claim C4 at a fresh state with the force flag
set: the account is recorded and the malicious incident is returned. -/
theorem first_time_ignore_witness :
    (pwd_result_mail_listener true demoEmail demoServer1 demoStFresh).2.firstTime
      = demoStFresh.firstTime ++ [demoEmail] ∧
    (true = false →
      (pwd_result_mail_listener true demoEmail demoServer1 demoStFresh).1 = none) ∧
    (true = true →
      (pwd_result_mail_listener true demoEmail demoServer1 demoStFresh).1
        = some (true, 1)) :=
  first_time_ignore true demoEmail demoServer1 demoStFresh demoMalMsg1
    (by decide) (by decide) (by decide) (by decide)

/-- Claim C5: when completing the reset via the emailed link is rejected
with the used-before-password error indicator, the flow performs exactly two
further password submissions in order, first the freshly generated random
password through the reset form, then the requested original password
through the in-account change form, verifying success after each, and the
rejection is handled rather than fatal (the overall result is success). -/
theorem used_before_two_submissions (randomPwd newPwd : String) :
    reset_password_via_mail_t true true true randomPwd newPwd =
      (Except.ok true,
       [BrowserAct.resetFormSubmit newPwd,
        BrowserAct.resetFormSubmit randomPwd,
        BrowserAct.verifyConfirm,
        BrowserAct.accountFormSubmit randomPwd newPwd,
        BrowserAct.verifyConfirm]) := rfl

theorem retry_rec_all_fail (outcome : Nat → Bool) (maxA : Nat)
    (hfail : ∀ k, outcome k = false) :
    ∀ fuel num : Nat, 1 ≤ num → num + fuel = maxA + 1 → 1 ≤ fuel →
      retry_rec outcome maxA num fuel = ⟨fuel, 0, 1, some 2, some 1⟩ := by
  intro fuel
  induction fuel with
  | zero =>
    intro num h1 h2 h3
    omega
  | succ f ih =>
    intro num h1 h2 h3
    by_cases hterm : maxA ≤ num
    · have hf : f = 0 := by omega
      subst hf
      simp [retry_rec, hterm, hfail num]
    · have hf1 : 1 ≤ f := by omega
      have hrec := ih (num + 1) (by omega) (by omega) hf1
      simp [retry_rec, hterm, hfail num, hrec]

theorem retry_rec_fm_le_one (outcome : Nat → Bool) (maxA : Nat) :
    ∀ fuel num : Nat, (retry_rec outcome maxA num fuel).failureMails ≤ 1 := by
  intro fuel
  induction fuel with
  | zero =>
    intro num
    simp [retry_rec]
  | succ f ih =>
    intro num
    by_cases hterm : maxA ≤ num
    · simp [retry_rec, hterm]
    · by_cases hok : outcome num
      · simp [retry_rec, hterm, hok]
      · simp only [retry_rec, hterm, hok]
        simpa using ih (num + 1)

/-- Claim C6: when every recovery attempt fails, the retry loop executes
exactly the configured number of attempts, sends exactly one failure
notification carrying the two attachments (day log and error screenshot),
re-arms the need-to-do flag to 1, sends no success mail; and for any
outcome sequence at most one failure notification is ever sent per
incident. -/
theorem retry_exhaustion_single_notice (maxA : Nat) (outcome : Nat → Bool)
    (hA : 1 ≤ maxA) (hfail : ∀ k, outcome k = false) :
    (run_recovery outcome maxA).attempts = maxA ∧
    (run_recovery outcome maxA).failureMails = 1 ∧
    (run_recovery outcome maxA).failureMailFiles = some 2 ∧
    (run_recovery outcome maxA).finalFlag = some 1 ∧
    (run_recovery outcome maxA).successMails = 0 ∧
    ∀ o2 : Nat → Bool, (run_recovery o2 maxA).failureMails ≤ 1 := by
  have h := retry_rec_all_fail outcome maxA hfail maxA 1 (le_refl 1) (by omega) hA
  unfold run_recovery
  rw [h]
  exact ⟨rfl, rfl, rfl, rfl, rfl, fun o2 => retry_rec_fm_le_one o2 maxA maxA 1⟩

/-- Witness for claim C6 at the configured default of 12 attempts with an
always-failing recovery. -/
theorem retry_exhaustion_single_notice_witness :
    (run_recovery (fun _ => false) max_num_of_attempts).attempts
      = max_num_of_attempts ∧
    (run_recovery (fun _ => false) max_num_of_attempts).failureMails = 1 ∧
    (run_recovery (fun _ => false) max_num_of_attempts).failureMailFiles = some 2 ∧
    (run_recovery (fun _ => false) max_num_of_attempts).finalFlag = some 1 ∧
    (run_recovery (fun _ => false) max_num_of_attempts).successMails = 0 ∧
    ∀ o2 : Nat → Bool, (run_recovery o2 max_num_of_attempts).failureMails ≤ 1 :=
  retry_exhaustion_single_notice max_num_of_attempts (fun _ => false) (by decide)
    (fun _ => rfl)

theorem reset_url_at_ne_nil (l u : List Char) (h : reset_url_at l = some u) :
    u ≠ [] := by
  simp only [reset_url_at] at h
  rcases hmc : matchLitCI resetUrlLitStr.data l with _ | ⟨m, rest⟩
  · rw [hmc] at h
    simp at h
  · simp only [hmc] at h
    by_cases hb : (rest.takeWhile fun c => !(c == chRB)).isEmpty
    · rw [if_pos hb] at h
      exact Option.noConfusion h
    · rw [if_neg hb] at h
      have hmu : m ++ (rest.takeWhile fun c => !(c == chRB)) = u :=
        Option.some.inj h
      intro hu
      rw [hu] at hmu
      have h2 := List.append_eq_nil.mp hmu
      rw [List.isEmpty_iff] at hb
      exact hb h2.2

theorem reset_url_chars_ne_nil :
    ∀ l u : List Char, reset_url_chars l = some u → u ≠ [] := by
  intro l
  induction l with
  | nil =>
    intro u h
    simp [reset_url_chars] at h
  | cons c cs ih =>
    intro u h
    simp only [reset_url_chars] at h
    cases hat : reset_url_at (c :: cs) with
    | some m =>
      simp only [hat] at h
      rw [← Option.some.inj h]
      exact reset_url_at_ne_nil (c :: cs) m hat
    | none =>
      simp only [hat] at h
      exact ih u h

theorem reset_url_group0_ne_empty (text url : String)
    (h : reset_url_group0 text = some url) : url ≠ "" := by
  simp only [reset_url_group0] at h
  cases hc : reset_url_chars text.data with
  | none =>
    rw [hc] at h
    simp at h
  | some l =>
    rw [hc] at h
    simp only [Option.map_some'] at h
    have hl := reset_url_chars_ne_nil text.data l hc
    intro hu
    apply hl
    have hdata := congrArg String.data (Option.some.inj h)
    rw [hu] at hdata
    simpa using hdata.symm

/-- Claim C7: on a fetched mail whose body matches the reset-link-delivery
pattern, the request listener fails loudly when the reset-URL pattern does
not match (no falsy or empty success value), and returns exactly the
matched URL string, which is nonempty, when it does. -/
theorem reset_link_extraction_contract (rds : Store) (email : String)
    (server : List MailMsg) (m : MailMsg)
    (hm : (fetch_mail rds email server).1 = some m)
    (hreq : is_password_reset_request m.text = true) :
    (reset_url_group0 m.text = none →
      (pwd_reset_request_mail_listener rds email server).1
        = Except.error linkExtractErrMsg) ∧
    (∀ url, reset_url_group0 m.text = some url →
      (pwd_reset_request_mail_listener rds email server).1
        = Except.ok (some url) ∧ url ≠ "") := by
  constructor
  · intro hnone
    simp [pwd_reset_request_mail_listener, hm, hreq, hnone]
  · intro url hsome
    refine ⟨?_, reset_url_group0_ne_empty m.text url hsome⟩
    simp [pwd_reset_request_mail_listener, hm, hreq, hsome]

/-- Witness for claim C7 on a body matching the reset-link-delivery pattern
but containing no reset URL: the listener fails with the extraction error. -/
theorem reset_link_extraction_contract_witness :
    (pwd_reset_request_mail_listener ([] : Store) demoEmail demoResetReqServer).1
      = Except.error linkExtractErrMsg :=
  (reset_link_extraction_contract ([] : Store) demoEmail demoResetReqServer
      demoResetReqMsg (by decide) (by decide)).1 (by decide)

theorem wait_ne_fuelOut (poll : Nat → Option String) (elapsed : Nat → Nat)
    (bound : Nat) (hgrow : ∀ k, 2 * k ≤ elapsed k) :
    ∀ m k : Nat, bound < 2 * k + 2 * m →
      wait_for_reset_mail poll elapsed bound k (m + 1) ≠ WaitRes.fuelOut := by
  intro m
  induction m with
  | zero =>
    intro k hk
    simp only [wait_for_reset_mail]
    cases hp : poll k with
    | some url => simp
    | none =>
      have hlt : bound < elapsed k := by
        have := hgrow k
        omega
      rw [if_pos hlt]
      simp
  | succ mm ih =>
    intro k hk
    simp only [wait_for_reset_mail]
    cases hp : poll k with
    | some url => simp
    | none =>
      by_cases hb : bound < elapsed k
      · rw [if_pos hb]
        simp
      · rw [if_neg hb]
        exact ih (k + 1) (by omega)

/-- Claim C8: the wait for the reset-link mail is bounded: with time
advancing by at least the two-second sleep per iteration, the polling loop
never exhausts its fuel; it ends either with a link, in which case
`__do_reset` suppresses the next result mail and proceeds, or with the
timeout exception once the elapsed wait exceeds
`60 * max_wait_reset_mail_time` seconds, which is raised to the outer retry
loop as an error rather than handled in place. -/
theorem reset_mail_wait_bounded (rds : Store) (email : String)
    (poll : Nat → Option String) (elapsed : Nat → Nat) (fuel : Nat)
    (hgrow : ∀ k, 2 * k ≤ elapsed k) (hfuel : 302 ≤ fuel) :
    wait_for_reset_mail poll elapsed (60 * max_wait_reset_mail_time) 0 fuel
      ≠ WaitRes.fuelOut ∧
    (∀ url,
      wait_for_reset_mail poll elapsed (60 * max_wait_reset_mail_time) 0 fuel
        = WaitRes.link url →
      do_reset_wait rds email poll elapsed fuel
        = Except.ok (url, set_need_to_do rds email 0)) ∧
    (wait_for_reset_mail poll elapsed (60 * max_wait_reset_mail_time) 0 fuel
        = WaitRes.timeoutErr →
      do_reset_wait rds email poll elapsed fuel = Except.error waitTimeoutMsg) := by
  obtain ⟨m, rfl⟩ : ∃ m, fuel = m + 1 := ⟨fuel - 1, by omega⟩
  refine ⟨?_, ?_, ?_⟩
  · apply wait_ne_fuelOut poll elapsed _ hgrow
    have h600 : 60 * max_wait_reset_mail_time = 600 := by decide
    omega
  · intro url hw
    simp [do_reset_wait, hw]
  · intro hw
    simp [do_reset_wait, hw]

/-- Witness for claim C8: with no mail ever arriving and the clock advancing
two seconds per iteration, the loop does not run out of fuel (it raises the
timeout instead). -/
theorem reset_mail_wait_bounded_witness :
    wait_for_reset_mail (fun _ => none) (fun k => 2 * k)
        (60 * max_wait_reset_mail_time) 0 302 ≠ WaitRes.fuelOut :=
  (reset_mail_wait_bounded ([] : Store) demoEmail (fun _ => none)
      (fun k => 2 * k) 302 (fun _ => Nat.le_refl _) (by decide)).1

theorem wait_until_url_true_iff (urls : Nat → String) (target : String) :
    ∀ fuel k : Nat, wait_until_url urls target k fuel = true ↔
      ∃ j, j < fuel ∧ urls (k + j) = target := by
  intro fuel
  induction fuel with
  | zero =>
    intro k
    simp [wait_until_url]
  | succ f ih =>
    intro k
    simp only [wait_until_url]
    by_cases h : urls k = target
    · have hb : (urls k == target) = true := beq_iff_eq.mpr h
      rw [if_pos hb]
      constructor
      · intro _
        refine ⟨0, by omega, ?_⟩
        simpa using h
      · intro _
        rfl
    · have hb : ¬ (urls k == target) = true := by
        simp [h]
      rw [if_neg hb]
      rw [ih (k + 1)]
      constructor
      · rintro ⟨j, hj, hu⟩
        refine ⟨j + 1, by omega, ?_⟩
        have he : k + (j + 1) = k + 1 + j := by omega
        rw [he]
        exact hu
      · rintro ⟨j, hj, hu⟩
        cases j with
        | zero => exact absurd (by simpa using hu) h
        | succ j2 =>
          refine ⟨j2, by omega, ?_⟩
          have he : k + 1 + j2 = k + (j2 + 1) := by omega
          rw [he]
          exact hu

/-- Claim C9: verification of a password change succeeds exactly when the
browser URL becomes the literal confirmation URL
https://www.netflix.com/YourAccount?confirm=password within the wait
budget; in every other case `__pwd_change_result` raises (an error result),
triggering the retry path. -/
theorem pwd_change_result_confirm_url (urls : Nat → String) (budget : Nat) :
    (pwd_change_result_url urls budget = Except.ok true ↔
      ∃ k, k < budget ∧ urls k = CONFIRM_URL) ∧
    ((∀ k, k < budget → urls k ≠ CONFIRM_URL) →
      pwd_change_result_url urls budget = Except.error pwdChangeFailMsg) := by
  have hiff := wait_until_url_true_iff urls CONFIRM_URL budget 0
  simp only [Nat.zero_add] at hiff
  have hpc : pwd_change_result_url urls budget =
      (if wait_until_url urls CONFIRM_URL 0 budget then Except.ok true
       else Except.error pwdChangeFailMsg) := rfl
  constructor
  · rw [hpc]
    by_cases hw : wait_until_url urls CONFIRM_URL 0 budget = true
    · rw [if_pos hw]
      constructor
      · intro _
        exact hiff.mp hw
      · intro _
        rfl
    · rw [if_neg hw]
      constructor
      · intro he
        exact Except.noConfusion he
      · intro hex
        exact absurd (hiff.mpr hex) hw
  · intro hnone
    rw [hpc]
    rw [if_neg ?hcond]
    case hcond =>
      intro hw
      obtain ⟨k, hk, hu⟩ := hiff.mp hw
      exact hnone k hk hu

/-- Witness for claim C9: a URL history reaching the confirmation URL at
tick 2 within budget 5 makes the verification return True. -/
theorem pwd_change_result_confirm_url_witness :
    pwd_change_result_url demoUrls 5 = Except.ok true :=
  (pwd_change_result_confirm_url demoUrls 5).1.mpr ⟨2, by omega, rfl⟩
